import Mathlib

/-
Shallow embedding of the syscall dispatcher of DiscoBSD for STM32,
file src/discobsd/sys/stm32/syscall.c, function syscall (lines 85-193).

The dispatcher receives a trap frame (the register snapshot copied to the
kernel stack by PendSV_Handler) and the per-process kernel state (struct
user u, plus the fields of the proc structure it references).  Machine
words are modelled as Nat; every stored register, address and counter is a
32-bit unsigned value, so wrapping arithmetic is made explicit with mod
2^32 exactly where the C unsigned arithmetic wraps.  Reads of user memory
(the svc instruction word and stack-passed arguments) go through a memory
function in the kernel configuration; the user-memory validity predicate
baduaddr, the syscall table sysent and the constants that come from
headers not present in src are configuration fields as well.

Side channels that the spec rules out of scope (LED control, UCB_METER
counters, interrupt mask manipulation) are not modelled.  The calls that
the claims observe, psignal and userret, are recorded in the outcome of
the dispatcher, together with a ghost flag that tells whether a syscall
handler was invoked.  The setjmp checkpoint around the handler invocation
is modelled by letting the handler be an arbitrary state transformer: the
state it returns is the state after a normal return or after an
abort-jump with an already-set error code.
-/

namespace DiscoBSD

/-- Word modulus: registers and addresses are 32-bit unsigned values. -/
def W : Nat := 2 ^ 32

/-- Wrapping 32-bit subtraction, the C unsigned subtraction a - b. -/
def wsub (a b : Nat) : Nat := (W + a - b) % W

/-- Modelled from the spec: the carry flag bit of the status register
(PSR_C); the machine header defining it is not in src.  On ARMv7-M the
APSR carry flag is bit 29. -/
def PSR_C : Nat := 2 ^ 29

/-- Modelled from the spec: the alignment-padding indicator bit of the
status register (SCB_CCR_STKALIGN_Msk, bit 9 on ARMv7-M); the CMSIS
header defining it is not in src. -/
def SCB_CCR_STKALIGN_Msk : Nat := 2 ^ 9

/-- Modelled from the spec: the restart sentinel ERESTART; the errno
header is not in src.  BSD kernels define it as the int -1, stored here
as its 32-bit two-complement pattern. -/
def ERESTART : Nat := W - 1

/-- Modelled from the spec: the suppressed-return sentinel EJUSTRETURN;
the errno header is not in src.  BSD kernels define it as the int -2,
stored here as its 32-bit two-complement pattern. -/
def EJUSTRETURN : Nat := W - 2

/-- Modelled from the spec: the segmentation violation signal number
(SIGSEGV, 11); the signal header is not in src. -/
def SIGSEGV : Nat := 11

/-- Trap frame pushed by PendSV_Handler onto the kernel stack: hardware
saved r0-r3, ip (replaced by the user stack pointer), lr, pc, psr.  The
fields are the ones syscall reads and writes (machine/frame.h is not in
src; the layout follows the trampoline asm and the field uses in
syscall.c). -/
structure TrapFrame where
  tf_r0 : Nat
  tf_r1 : Nat
  tf_r2 : Nat
  tf_r3 : Nat
  tf_sp : Nat
  tf_lr : Nat
  tf_pc : Nat
  tf_psr : Nat
  deriving Repr, DecidableEq

/-- Fields of the proc structure that syscall touches (p_daddr, p_ssize,
p_saddr). -/
structure ProcFields where
  p_daddr : Nat
  p_ssize : Nat
  p_saddr : Nat
  deriving Repr, DecidableEq

/-- Fields of struct user (the fixed per-process kernel state block u)
that syscall touches.  The frame pointed to by u.u_frame is stored
inline: syscall sets u.u_frame to its argument before any frame access,
so u_frame below is the (contents of the) trap frame of this trap.  The
proc structure pointed to by u_procp is inlined the same way. -/
structure UserState where
  u_error : Nat
  u_rval : Nat
  u_frame : TrapFrame
  u_code : Nat
  u_arg : Fin 6 → Nat
  u_dsize : Nat
  u_ssize : Nat
  u_procp : ProcFields
  u_ru_stime : Nat

/-- Entry of the syscall table: declared argument count and handler.  The
handler is an arbitrary transformer of the per-process state; this also
covers the abort-jump through the u_qsave checkpoint, which leaves the
dispatcher with some state whose u_error was set by the signal path. -/
structure Sysent where
  sy_narg : Nat
  sy_call : UserState → UserState

/-- Default table entry used by List.getD; with a nonempty table it is
never returned (the C code dereferences sysent[0] unconditionally). -/
def sysent0 : Sysent := { sy_narg := 0, sy_call := id }

/-- Kernel configuration surrounding one trap: the address and size of u
(for the kernel stack overflow check), the instruction width INSN_SZ, the
constant USER_DATA_END (machine header not in src; modelled from the
spec as the end of the user data area), user memory as a function from
byte address to the 32-bit word read there, the user-memory validity
predicate baduaddr (true means invalid), and the syscall table sysent.
The table length nsysent is its list length. -/
structure Kernel where
  uAddr : Nat
  uSize : Nat
  insnSz : Nat
  userDataEnd : Nat
  mem : Nat → Nat
  baduaddr : Nat → Bool
  sysent : List Sysent

/-- Length of the syscall table (the C variable nsysent). -/
def nsysent (k : Kernel) : Nat := k.sysent.length

/-- Lines 108-110: u.u_error = 0; u.u_frame = frame (implicit here, the
frame is stored inline); u.u_code = u.u_frame->tf_pc - INSN_SZ, a 32-bit
unsigned subtraction. -/
def prologue (k : Kernel) (s : UserState) : UserState :=
  { s with u_error := 0, u_code := wsub s.u_frame.tf_pc k.insnSz }

/-- Lines 122-127: if (u.u_procp->p_ssize < USER_DATA_END - sp) grow the
recorded stack bookkeeping to USER_DATA_END - sp and base sp.  The
subtraction is 32-bit unsigned. -/
def stackGrow (k : Kernel) (s : UserState) : UserState :=
  if s.u_procp.p_ssize < wsub k.userDataEnd s.u_frame.tf_sp then
    { s with
      u_procp := { s.u_procp with
        p_ssize := wsub k.userDataEnd s.u_frame.tf_sp,
        p_saddr := s.u_frame.tf_sp },
      u_ssize := wsub k.userDataEnd s.u_frame.tf_sp }
  else s

/-- State at line 129, after the prologue and the stack bookkeeping (on
the path where the stack check passed). -/
def postStack (k : Kernel) (s : UserState) : UserState :=
  stackGrow k (prologue k s)

/-- Line 129: code = *(int *)u.u_code & 0377 (bottom 8 bits; 0377 octal
is 255). -/
def decodeCode (k : Kernel) (s : UserState) : Nat :=
  k.mem s.u_code &&& 255

/-- Lines 131-134: callp = &sysent[0]; if (code < nsysent) callp += code.
The index actually used into the table. -/
def selIndex (k : Kernel) (code : Nat) : Nat :=
  if code < nsysent k then code else 0

/-- Table entry selected for a decoded code. -/
def selectEntry (k : Kernel) (code : Nat) : Sysent :=
  k.sysent.getD (selIndex k code) sysent0

/-- The decoded syscall code of this trap. -/
def theCode (k : Kernel) (s : UserState) : Nat :=
  decodeCode k (postStack k s)

/-- The table entry this trap dispatches through. -/
def theEntry (k : Kernel) (s : UserState) : Sysent :=
  selectEntry k (theCode k s)

/-- Lines 144-147: stkalign = 4 when the STKALIGN bit of tf_psr is set,
else 0. -/
def stkalignOf (psr : Nat) : Nat :=
  if psr &&& SCB_CCR_STKALIGN_Msk ≠ 0 then 4 else 0

/-- Line 151: (u.u_frame->tf_sp + 32 + stkalign) & ~3, 32-bit unsigned
addition then clearing the two low bits (~3 as a 32-bit word is
2^32 - 4). -/
def argAddr5 (stkalign sp : Nat) : Nat :=
  ((sp + 32 + stkalign) % W) &&& (W - 4)

/-- Line 156: (u.u_frame->tf_sp + 36 + stkalign) & ~3. -/
def argAddr6 (stkalign sp : Nat) : Nat :=
  ((sp + 36 + stkalign) % W) &&& (W - 4)

/-- Lines 138-141: u_arg[0..3] filled from the frame registers r0-r3. -/
def argsRegs (s : UserState) : Fin 6 → Nat :=
  Function.update (Function.update (Function.update
    (Function.update s.u_arg 0 s.u_frame.tf_r0) 1 s.u_frame.tf_r1)
    2 s.u_frame.tf_r2) 3 s.u_frame.tf_r3

/-- Lines 150-154: the fifth argument, read from the user stack when the
entry declares more than four arguments and the address passes the
baduaddr check; on a failed check the slot keeps its previous value. -/
def args5 (k : Kernel) (callp : Sysent) (s : UserState) : Fin 6 → Nat :=
  if 4 < callp.sy_narg then
    if ¬ k.baduaddr (argAddr5 (stkalignOf s.u_frame.tf_psr) s.u_frame.tf_sp)
    then
      Function.update (argsRegs s) 4
        (k.mem (argAddr5 (stkalignOf s.u_frame.tf_psr) s.u_frame.tf_sp))
    else argsRegs s
  else argsRegs s

/-- Lines 155-159: the sixth argument, with its own independent baduaddr
guard. -/
def args6 (k : Kernel) (callp : Sysent) (s : UserState) : Fin 6 → Nat :=
  if 5 < callp.sy_narg then
    if ¬ k.baduaddr (argAddr6 (stkalignOf s.u_frame.tf_psr) s.u_frame.tf_sp)
    then
      Function.update (args5 k callp s) 5
        (k.mem (argAddr6 (stkalignOf s.u_frame.tf_psr) s.u_frame.tf_sp))
    else args5 k callp s
  else args5 k callp s

/-- Lines 136-160: if the entry declares arguments, copy r0-r3 into
u_arg[0..3], then read arguments five and six from the user stack, each
guarded by its own baduaddr check; a failed check leaves that slot as it
was. -/
def fetchArgs (k : Kernel) (callp : Sysent) (s : UserState) : UserState :=
  if callp.sy_narg ≠ 0 then { s with u_arg := args6 k callp s } else s

/-- State at line 164, just before the handler invocation: arguments
fetched and u.u_rval = 0 (line 162). -/
def preInvoke (k : Kernel) (s : UserState) : UserState :=
  { fetchArgs k (theEntry k s) (postStack k s) with u_rval := 0 }

/-- State after the handler invocation (line 165) or after an abort-jump
through the u_qsave checkpoint with u_error already set. -/
def postInvoke (k : Kernel) (s : UserState) : UserState :=
  (theEntry k s).sy_call (preInvoke k s)

/-- Lines 168-182: encode the outcome into the frame according to
u_error: 0 clears the carry bit and writes u_rval to tf_r0; ERESTART
rewinds tf_pc by INSN_SZ; EJUSTRETURN touches nothing; any other value
sets the carry bit and writes u_error to tf_r0. -/
def resultEncode (insnSz : Nat) (s : UserState) : UserState :=
  if s.u_error = 0 then
    { s with u_frame := { s.u_frame with
        tf_psr := s.u_frame.tf_psr &&& (W - 1 - PSR_C),
        tf_r0 := s.u_rval } }
  else if s.u_error = ERESTART then
    { s with u_frame := { s.u_frame with
        tf_pc := wsub s.u_frame.tf_pc insnSz } }
  else if s.u_error = EJUSTRETURN then
    s
  else
    { s with u_frame := { s.u_frame with
        tf_psr := s.u_frame.tf_psr ||| PSR_C,
        tf_r0 := s.u_error } }

/-- Final per-process state of a trap that reaches the result encoding. -/
def finalU (k : Kernel) (s : UserState) : UserState :=
  resultEncode k.insnSz (postInvoke k s)

/-- Observable outcome of one non-panicking run of syscall: the final
per-process state, the signals posted through psignal, a ghost flag
telling whether the selected handler was invoked, and the two arguments
passed to userret (line 190). -/
structure SyscallOutcome where
  u : UserState
  psigs : List Nat
  invoked : Bool
  userretPc : Nat
  userretSyst : Nat

/-- Result of syscall: either a kernel halt through panic (line 96, no
return) or a normal return with an observable outcome. -/
inductive SyscallResult where
  | panic (msg : String)
  | ok (o : SyscallOutcome)

/-- The syscall dispatcher, lines 85-193.  frameAddr is the numeric value
of the frame pointer argument (the kernel-stack address of the frame),
s is the per-process state on entry with s.u_frame holding the contents
of that frame.  Control flow: the overflow check at line 95 (unsigned
pointer comparison), the user stack check at line 116 with the bad path
of lines 185-191, the growth bookkeeping, decode, argument fetch,
invocation and result encoding on the good path, both paths ending in
userret(u.u_frame->tf_pc, syst) with syst captured at line 93. -/
def syscall (k : Kernel) (frameAddr : Nat) (s : UserState) : SyscallResult :=
  if frameAddr % W < (k.uAddr + k.uSize) % W then
    .panic "stack overflow"
  else if (prologue k s).u_frame.tf_sp <
      ((prologue k s).u_procp.p_daddr + (prologue k s).u_dsize) % W then
    .ok { u := prologue k s, psigs := [SIGSEGV], invoked := false,
          userretPc := (prologue k s).u_frame.tf_pc,
          userretSyst := s.u_ru_stime }
  else
    .ok { u := finalU k s, psigs := [], invoked := true,
          userretPc := (finalU k s).u_frame.tf_pc,
          userretSyst := s.u_ru_stime }

/-! Supporting lemmas: which fields each phase of the dispatcher leaves
unchanged, closed forms for the wrapping arithmetic, and the two control
paths of syscall. -/

theorem W_eq : W = 4294967296 := by norm_num [W]

theorem wsub_eq_sub (a b : Nat) (hb : b ≤ a) (ha : a < W) :
    wsub a b = a - b := by
  unfold wsub
  rw [W_eq] at *
  omega

theorem prologue_u_frame (k : Kernel) (s : UserState) :
    (prologue k s).u_frame = s.u_frame := rfl

theorem prologue_u_procp (k : Kernel) (s : UserState) :
    (prologue k s).u_procp = s.u_procp := rfl

theorem prologue_u_dsize (k : Kernel) (s : UserState) :
    (prologue k s).u_dsize = s.u_dsize := rfl

theorem prologue_u_arg (k : Kernel) (s : UserState) :
    (prologue k s).u_arg = s.u_arg := rfl

theorem stackGrow_u_frame (k : Kernel) (s : UserState) :
    (stackGrow k s).u_frame = s.u_frame := by
  unfold stackGrow
  split <;> rfl

theorem stackGrow_u_arg (k : Kernel) (s : UserState) :
    (stackGrow k s).u_arg = s.u_arg := by
  unfold stackGrow
  split <;> rfl

theorem stackGrow_u_error (k : Kernel) (s : UserState) :
    (stackGrow k s).u_error = s.u_error := by
  unfold stackGrow
  split <;> rfl

theorem postStack_u_frame (k : Kernel) (s : UserState) :
    (postStack k s).u_frame = s.u_frame := by
  unfold postStack
  rw [stackGrow_u_frame, prologue_u_frame]

theorem postStack_u_arg (k : Kernel) (s : UserState) :
    (postStack k s).u_arg = s.u_arg := by
  unfold postStack
  rw [stackGrow_u_arg, prologue_u_arg]

theorem postStack_u_error (k : Kernel) (s : UserState) :
    (postStack k s).u_error = 0 := by
  unfold postStack
  rw [stackGrow_u_error]
  rfl

theorem fetchArgs_u_frame (k : Kernel) (c : Sysent) (s : UserState) :
    (fetchArgs k c s).u_frame = s.u_frame := by
  unfold fetchArgs
  split <;> rfl

theorem fetchArgs_u_error (k : Kernel) (c : Sysent) (s : UserState) :
    (fetchArgs k c s).u_error = s.u_error := by
  unfold fetchArgs
  split <;> rfl

theorem preInvoke_u_frame (k : Kernel) (s : UserState) :
    (preInvoke k s).u_frame = s.u_frame := by
  unfold preInvoke
  show (fetchArgs k (theEntry k s) (postStack k s)).u_frame = s.u_frame
  rw [fetchArgs_u_frame, postStack_u_frame]

theorem preInvoke_u_error (k : Kernel) (s : UserState) :
    (preInvoke k s).u_error = 0 := by
  unfold preInvoke
  show (fetchArgs k (theEntry k s) (postStack k s)).u_error = 0
  rw [fetchArgs_u_error, postStack_u_error]

theorem preInvoke_u_rval (k : Kernel) (s : UserState) :
    (preInvoke k s).u_rval = 0 := rfl

/-- The good path of syscall: no kernel stack overflow and the user stack
check passed. -/
theorem syscall_good (k : Kernel) (fa : Nat) (s : UserState)
    (h1 : ¬ fa % W < (k.uAddr + k.uSize) % W)
    (h2 : ¬ s.u_frame.tf_sp < (s.u_procp.p_daddr + s.u_dsize) % W) :
    syscall k fa s =
      .ok { u := finalU k s, psigs := [], invoked := true,
            userretPc := (finalU k s).u_frame.tf_pc,
            userretSyst := s.u_ru_stime } := by
  unfold syscall
  rw [if_neg h1, if_neg]
  rw [prologue_u_frame, prologue_u_procp, prologue_u_dsize]
  exact h2

/-- The process-fault path of syscall: no kernel stack overflow, user
stack pointer below the data segment end. -/
theorem syscall_bad (k : Kernel) (fa : Nat) (s : UserState)
    (h1 : ¬ fa % W < (k.uAddr + k.uSize) % W)
    (h2 : s.u_frame.tf_sp < (s.u_procp.p_daddr + s.u_dsize) % W) :
    syscall k fa s =
      .ok { u := prologue k s, psigs := [SIGSEGV], invoked := false,
            userretPc := s.u_frame.tf_pc,
            userretSyst := s.u_ru_stime } := by
  unfold syscall
  rw [if_neg h1, if_pos]
  · exact rfl
  · rw [prologue_u_frame, prologue_u_procp, prologue_u_dsize]
    exact h2

/-- Clearing the low two bits of a 32-bit word with the mask ~3. -/
theorem land_mask4 (x : Nat) (hx : x < W) : x &&& (W - 4) = x - x % 4 := by
  rw [W_eq] at *
  have h4 : x - x % 4 = (x >>> 2) <<< 2 := by
    rw [Nat.shiftRight_eq_div_pow, Nat.shiftLeft_eq]
    omega
  have hm : (4294967296 - 4 : Nat) = (2 ^ 30 - 1) <<< 2 := by
    norm_num [Nat.shiftLeft_eq]
  rw [h4, hm]
  apply Nat.eq_of_testBit_eq
  intro i
  rw [Nat.testBit_land, Nat.testBit_shiftLeft, Nat.testBit_shiftLeft,
      Nat.testBit_shiftRight, Nat.testBit_two_pow_sub_one]
  rcases Nat.lt_or_ge i 2 with h | h
  · have hni : ¬ (i ≥ 2) := by omega
    simp [hni]
  · rcases Nat.lt_or_ge i 32 with h32 | h32
    · have he : 2 + (i - 2) = i := by omega
      have hlt : i - 2 < 30 := by omega
      simp [h, he, hlt]
    · have hb : x.testBit i = false := by
        apply Nat.testBit_lt_two_pow
        calc x < 4294967296 := hx
          _ = 2 ^ 32 := by norm_num
          _ ≤ 2 ^ i := Nat.pow_le_pow_right (by norm_num) h32
      have hn30 : ¬ (i - 2 < 30) := by omega
      simp [h, hn30, hb]

/-- Closed form for the proc fields after the stack bookkeeping phase. -/
theorem postStack_procp (k : Kernel) (s : UserState) :
    (postStack k s).u_procp =
      if s.u_procp.p_ssize < wsub k.userDataEnd s.u_frame.tf_sp then
        { s.u_procp with
          p_ssize := wsub k.userDataEnd s.u_frame.tf_sp,
          p_saddr := s.u_frame.tf_sp }
      else s.u_procp := by
  unfold postStack stackGrow
  rw [prologue_u_procp, prologue_u_frame]
  by_cases hc : s.u_procp.p_ssize < wsub k.userDataEnd s.u_frame.tf_sp
  · rw [if_pos hc, if_pos hc]
  · rw [if_neg hc, if_neg hc, prologue_u_procp]

/-- Closed form for u_ssize after the stack bookkeeping phase. -/
theorem postStack_ssize (k : Kernel) (s : UserState) :
    (postStack k s).u_ssize =
      if s.u_procp.p_ssize < wsub k.userDataEnd s.u_frame.tf_sp then
        wsub k.userDataEnd s.u_frame.tf_sp
      else s.u_ssize := by
  unfold postStack stackGrow
  rw [prologue_u_procp, prologue_u_frame]
  by_cases hc : s.u_procp.p_ssize < wsub k.userDataEnd s.u_frame.tf_sp
  · rw [if_pos hc, if_pos hc]
  · rw [if_neg hc, if_neg hc]
    rfl

/-- C2: the dispatcher panics (halts, never returning an outcome) exactly
when the kernel-side frame address is numerically below the end of the
per-process kernel state block, the address of u plus sizeof(u); a frame
address exactly equal to that boundary does not halt, one address below
it does. -/
theorem panic_iff_frame_below_u_end (k : Kernel) (fa : Nat) (s : UserState)
    (hk : k.uAddr + k.uSize < W) (hfa : fa < W) :
    (syscall k fa s = .panic "stack overflow" ↔ fa < k.uAddr + k.uSize) ∧
    syscall k (k.uAddr + k.uSize) s ≠ .panic "stack overflow" ∧
    (0 < k.uAddr + k.uSize →
      syscall k (k.uAddr + k.uSize - 1) s = .panic "stack overflow") := by
  have hm : (k.uAddr + k.uSize) % W = k.uAddr + k.uSize := Nat.mod_eq_of_lt hk
  refine ⟨⟨?_, ?_⟩, ?_, ?_⟩
  · intro h
    by_contra hlt
    have hcond : ¬ fa % W < (k.uAddr + k.uSize) % W := by
      rw [hm, Nat.mod_eq_of_lt hfa]
      exact hlt
    unfold syscall at h
    rw [if_neg hcond] at h
    split at h <;> simp at h
  · intro h
    have hcond : fa % W < (k.uAddr + k.uSize) % W := by
      rw [hm, Nat.mod_eq_of_lt hfa]
      exact h
    unfold syscall
    rw [if_pos hcond]
  · intro h
    have hcond : ¬ (k.uAddr + k.uSize) % W < (k.uAddr + k.uSize) % W :=
      lt_irrefl _
    unfold syscall at h
    rw [if_neg hcond] at h
    split at h <;> simp at h
  · intro hpos
    have hcond : (k.uAddr + k.uSize - 1) % W < (k.uAddr + k.uSize) % W := by
      rw [hm, Nat.mod_eq_of_lt (by omega)]
      omega
    unfold syscall
    rw [if_pos hcond]

/-! Concrete fixtures used by the witness theorems: a frame, a state and
kernels whose single-entry tables hold handlers with the behaviors the
claims quantify over. -/

/-- Example trap frame: user stack pointer 65536, return address 1000,
status register 0. -/
def tfEx : TrapFrame :=
  { tf_r0 := 10, tf_r1 := 11, tf_r2 := 12, tf_r3 := 13,
    tf_sp := 65536, tf_lr := 0, tf_pc := 1000, tf_psr := 0 }

/-- Example per-process state: data segment [200, 300), no recorded
stack. -/
def sEx : UserState :=
  { u_error := 99, u_rval := 5, u_frame := tfEx, u_code := 0,
    u_arg := fun _ => 77, u_dsize := 100, u_ssize := 0,
    u_procp := { p_daddr := 200, p_ssize := 0, p_saddr := 0 },
    u_ru_stime := 42 }

/-- Copy of a state with the user stack pointer replaced. -/
def UserState.withSp (s : UserState) (sp : Nat) : UserState :=
  { s with u_frame := { s.u_frame with tf_sp := sp } }

/-- Handler that succeeds with return value 7. -/
def hSuc : UserState → UserState :=
  fun s => { s with u_error := 0, u_rval := 7 }

/-- Example kernel: u occupies [100, 150), instruction width 2, user data
ends at 1048576, table with one three-argument entry. -/
def kEx : Kernel :=
  { uAddr := 100, uSize := 50, insnSz := 2, userDataEnd := 1048576,
    mem := fun _ => 0, baduaddr := fun _ => false,
    sysent := [{ sy_narg := 3, sy_call := hSuc }] }

/-- C2 witness: with u in [100, 150), frame address 200 does not panic,
149 does, and 150 (the exact boundary) does not. -/
theorem panic_iff_frame_below_u_end_witness :
    (kEx.uAddr + kEx.uSize < W ∧ (200 : Nat) < W) ∧
    ((syscall kEx 200 sEx = .panic "stack overflow" ↔
        200 < kEx.uAddr + kEx.uSize) ∧
      syscall kEx (kEx.uAddr + kEx.uSize) sEx ≠ .panic "stack overflow" ∧
      (0 < kEx.uAddr + kEx.uSize →
        syscall kEx (kEx.uAddr + kEx.uSize - 1) sEx =
          .panic "stack overflow")) :=
  ⟨⟨by decide, by decide⟩,
   panic_iff_frame_below_u_end kEx 200 sEx (by decide) (by decide)⟩

/-- C3: a trap whose user stack pointer is strictly below the data
segment end (p_daddr + u_dsize) skips dispatch entirely: no handler is
invoked, SIGSEGV is posted through psignal, and control proceeds to the
exit path (userret); a stack pointer exactly equal to the data segment
end is accepted and dispatch proceeds without a fault. -/
theorem user_stack_fault_boundary (k : Kernel) (fa : Nat) (s : UserState)
    (hpanic : ¬ fa % W < (k.uAddr + k.uSize) % W)
    (hd : s.u_procp.p_daddr + s.u_dsize < W) :
    (s.u_frame.tf_sp < s.u_procp.p_daddr + s.u_dsize →
      syscall k fa s =
        .ok { u := prologue k s, psigs := [SIGSEGV], invoked := false,
              userretPc := s.u_frame.tf_pc,
              userretSyst := s.u_ru_stime }) ∧
    (s.u_frame.tf_sp = s.u_procp.p_daddr + s.u_dsize →
      syscall k fa s =
        .ok { u := finalU k s, psigs := [], invoked := true,
              userretPc := (finalU k s).u_frame.tf_pc,
              userretSyst := s.u_ru_stime }) := by
  have hm : (s.u_procp.p_daddr + s.u_dsize) % W = s.u_procp.p_daddr + s.u_dsize :=
    Nat.mod_eq_of_lt hd
  constructor
  · intro h
    refine syscall_bad k fa s hpanic ?_
    rw [hm]
    exact h
  · intro h
    refine syscall_good k fa s hpanic ?_
    rw [hm]
    omega

/-- C3 witness: stack pointer 250 (below the data segment end 300)
faults with SIGSEGV and no dispatch; stack pointer exactly 300 is
accepted and dispatched. -/
theorem user_stack_fault_boundary_witness :
    ((¬ (200 : Nat) % W < (kEx.uAddr + kEx.uSize) % W) ∧
      sEx.u_procp.p_daddr + sEx.u_dsize < W) ∧
    (((sEx.withSp 250).u_frame.tf_sp <
        (sEx.withSp 250).u_procp.p_daddr + (sEx.withSp 250).u_dsize →
      syscall kEx 200 (sEx.withSp 250) =
        .ok { u := prologue kEx (sEx.withSp 250), psigs := [SIGSEGV],
              invoked := false,
              userretPc := (sEx.withSp 250).u_frame.tf_pc,
              userretSyst := (sEx.withSp 250).u_ru_stime }) ∧
      ((sEx.withSp 250).u_frame.tf_sp =
          (sEx.withSp 250).u_procp.p_daddr + (sEx.withSp 250).u_dsize →
        syscall kEx 200 (sEx.withSp 250) =
          .ok { u := finalU kEx (sEx.withSp 250), psigs := [],
                invoked := true,
                userretPc := (finalU kEx (sEx.withSp 250)).u_frame.tf_pc,
                userretSyst := (sEx.withSp 250).u_ru_stime })) :=
  ⟨⟨by decide, by decide⟩,
   user_stack_fault_boundary kEx 200 (sEx.withSp 250) (by decide) (by decide)⟩

/-- C10: on the process-fault path the dispatch is fully skipped and the
frame is unmodified: the outcome frame (hence carry bit, return register
and return address) equals the entry frame, no argument slot is written,
the stack bookkeeping (p_ssize, p_saddr, u_ssize) is untouched, u_error
is 0, no handler is invoked, userret receives the unchanged return
address, and the run does not depend on user memory, the baduaddr
predicate, or the syscall table (so no syscall code is decoded and the
table is never consulted). -/
theorem fault_path_frame_effect (k : Kernel) (fa : Nat) (s : UserState)
    (hpanic : ¬ fa % W < (k.uAddr + k.uSize) % W)
    (hbad : s.u_frame.tf_sp < (s.u_procp.p_daddr + s.u_dsize) % W) :
    ∃ o : SyscallOutcome, syscall k fa s = .ok o ∧
      o.u.u_frame = s.u_frame ∧
      o.u.u_error = 0 ∧
      o.u.u_arg = s.u_arg ∧
      o.u.u_procp = s.u_procp ∧
      o.u.u_ssize = s.u_ssize ∧
      o.u.u_rval = s.u_rval ∧
      o.invoked = false ∧
      o.psigs = [SIGSEGV] ∧
      o.userretPc = s.u_frame.tf_pc ∧
      ∀ (m2 : Nat → Nat) (b2 : Nat → Bool) (t2 : List Sysent),
        syscall { k with mem := m2, baduaddr := b2, sysent := t2 } fa s =
          syscall k fa s := by
  refine ⟨_, syscall_bad k fa s hpanic hbad, rfl, rfl, rfl, rfl, rfl, rfl,
    rfl, rfl, rfl, ?_⟩
  intro m2 b2 t2
  rw [syscall_bad k fa s hpanic hbad,
      syscall_bad { k with mem := m2, baduaddr := b2, sysent := t2 } fa s
        hpanic hbad]
  rfl

/-- C10 witness: the fault path at stack pointer 250. -/
theorem fault_path_frame_effect_witness :
    ((¬ (200 : Nat) % W < (kEx.uAddr + kEx.uSize) % W) ∧
      (sEx.withSp 250).u_frame.tf_sp <
        ((sEx.withSp 250).u_procp.p_daddr + (sEx.withSp 250).u_dsize) % W) ∧
    (∃ o : SyscallOutcome, syscall kEx 200 (sEx.withSp 250) = .ok o ∧
      o.u.u_frame = (sEx.withSp 250).u_frame ∧
      o.u.u_error = 0 ∧
      o.u.u_arg = (sEx.withSp 250).u_arg ∧
      o.u.u_procp = (sEx.withSp 250).u_procp ∧
      o.u.u_ssize = (sEx.withSp 250).u_ssize ∧
      o.u.u_rval = (sEx.withSp 250).u_rval ∧
      o.invoked = false ∧
      o.psigs = [SIGSEGV] ∧
      o.userretPc = (sEx.withSp 250).u_frame.tf_pc ∧
      ∀ (m2 : Nat → Nat) (b2 : Nat → Bool) (t2 : List Sysent),
        syscall { kEx with mem := m2, baduaddr := b2, sysent := t2 } 200
            (sEx.withSp 250) =
          syscall kEx 200 (sEx.withSp 250)) :=
  ⟨⟨by decide, by decide⟩,
   fault_path_frame_effect kEx 200 (sEx.withSp 250) (by decide) (by decide)⟩

/-- C1: result encoding after handler invocation.  When the error code
is 0 after the handler (or abort-jump), the dispatcher clears the carry
bit (bit 29) of tf_psr and writes the recorded return value u_rval into
tf_r0.  When the error code is a nonzero value e distinct from ERESTART
and EJUSTRETURN, the dispatcher sets the carry bit, writes e into tf_r0,
and leaves tf_pc unchanged (in particular, if the handler left tf_pc at
its pre-dispatch value, tf_pc still holds that value). -/
theorem result_encoding_success_error (k : Kernel) (fa : Nat) (s : UserState)
    (hpanic : ¬ fa % W < (k.uAddr + k.uSize) % W)
    (hok : ¬ s.u_frame.tf_sp < (s.u_procp.p_daddr + s.u_dsize) % W) :
    syscall k fa s =
      .ok { u := finalU k s, psigs := [], invoked := true,
            userretPc := (finalU k s).u_frame.tf_pc,
            userretSyst := s.u_ru_stime } ∧
    ((postInvoke k s).u_error = 0 →
      (finalU k s).u_frame.tf_psr.testBit 29 = false ∧
      (finalU k s).u_frame.tf_r0 = (postInvoke k s).u_rval ∧
      (finalU k s).u_frame.tf_pc = (postInvoke k s).u_frame.tf_pc) ∧
    (∀ e : Nat, (postInvoke k s).u_error = e → e ≠ 0 → e ≠ ERESTART →
      e ≠ EJUSTRETURN →
      (finalU k s).u_frame.tf_psr.testBit 29 = true ∧
      (finalU k s).u_frame.tf_r0 = e ∧
      (finalU k s).u_frame.tf_pc = (postInvoke k s).u_frame.tf_pc ∧
      ((postInvoke k s).u_frame.tf_pc = s.u_frame.tf_pc →
        (finalU k s).u_frame.tf_pc = s.u_frame.tf_pc)) := by
  refine ⟨syscall_good k fa s hpanic hok, ?_, ?_⟩
  · intro h
    have hm : ((W : Nat) - 1 - PSR_C).testBit 29 = false := by decide
    unfold finalU resultEncode
    rw [if_pos h]
    refine ⟨?_, rfl, rfl⟩
    show ((postInvoke k s).u_frame.tf_psr &&& (W - 1 - PSR_C)).testBit 29 = false
    rw [Nat.testBit_land, hm]
    exact Bool.and_false _
  · intro e he h0 hr hj
    have hm : (PSR_C).testBit 29 = true := by decide
    unfold finalU resultEncode
    rw [he, if_neg h0, if_neg hr, if_neg hj]
    refine ⟨?_, rfl, rfl, ?_⟩
    · show ((postInvoke k s).u_frame.tf_psr ||| PSR_C).testBit 29 = true
      rw [Nat.testBit_lor, hm]
      exact Bool.or_true _
    · intro hpc
      exact hpc

/-- C1 witness: kernel kEx dispatches code 0 into hSuc, which succeeds
with value 7; the trap at stack pointer 65536 passes both checks. -/
theorem result_encoding_success_error_witness :
    ((¬ (200 : Nat) % W < (kEx.uAddr + kEx.uSize) % W) ∧
      (¬ sEx.u_frame.tf_sp < (sEx.u_procp.p_daddr + sEx.u_dsize) % W)) ∧
    (syscall kEx 200 sEx =
      .ok { u := finalU kEx sEx, psigs := [], invoked := true,
            userretPc := (finalU kEx sEx).u_frame.tf_pc,
            userretSyst := sEx.u_ru_stime } ∧
    ((postInvoke kEx sEx).u_error = 0 →
      (finalU kEx sEx).u_frame.tf_psr.testBit 29 = false ∧
      (finalU kEx sEx).u_frame.tf_r0 = (postInvoke kEx sEx).u_rval ∧
      (finalU kEx sEx).u_frame.tf_pc = (postInvoke kEx sEx).u_frame.tf_pc) ∧
    (∀ e : Nat, (postInvoke kEx sEx).u_error = e → e ≠ 0 → e ≠ ERESTART →
      e ≠ EJUSTRETURN →
      (finalU kEx sEx).u_frame.tf_psr.testBit 29 = true ∧
      (finalU kEx sEx).u_frame.tf_r0 = e ∧
      (finalU kEx sEx).u_frame.tf_pc = (postInvoke kEx sEx).u_frame.tf_pc ∧
      ((postInvoke kEx sEx).u_frame.tf_pc = sEx.u_frame.tf_pc →
        (finalU kEx sEx).u_frame.tf_pc = sEx.u_frame.tf_pc))) :=
  ⟨⟨by decide, by decide⟩,
   result_encoding_success_error kEx 200 sEx (by decide) (by decide)⟩

/-- C5: restart encoding.  When the error code equals ERESTART after
handler invocation, the dispatcher rewinds tf_pc by one instruction
width and leaves tf_psr and tf_r0 exactly as the handler set them; when
the handler left tf_pc at its pre-dispatch value, the post-dispatch
return address is the pre-dispatch return address minus INSN_SZ. -/
theorem restart_encoding (k : Kernel) (fa : Nat) (s : UserState)
    (hpanic : ¬ fa % W < (k.uAddr + k.uSize) % W)
    (hok : ¬ s.u_frame.tf_sp < (s.u_procp.p_daddr + s.u_dsize) % W)
    (he : (postInvoke k s).u_error = ERESTART) :
    syscall k fa s =
      .ok { u := finalU k s, psigs := [], invoked := true,
            userretPc := (finalU k s).u_frame.tf_pc,
            userretSyst := s.u_ru_stime } ∧
    (finalU k s).u_frame.tf_pc =
      wsub (postInvoke k s).u_frame.tf_pc k.insnSz ∧
    (finalU k s).u_frame.tf_psr = (postInvoke k s).u_frame.tf_psr ∧
    (finalU k s).u_frame.tf_r0 = (postInvoke k s).u_frame.tf_r0 ∧
    ((postInvoke k s).u_frame.tf_pc = s.u_frame.tf_pc →
      k.insnSz ≤ s.u_frame.tf_pc → s.u_frame.tf_pc < W →
      (finalU k s).u_frame.tf_pc = s.u_frame.tf_pc - k.insnSz) := by
  refine ⟨syscall_good k fa s hpanic hok, ?_⟩
  unfold finalU resultEncode
  rw [he, if_neg (by decide), if_pos rfl]
  refine ⟨rfl, rfl, rfl, ?_⟩
  intro hpc hle hlt
  show wsub (postInvoke k s).u_frame.tf_pc k.insnSz = s.u_frame.tf_pc - k.insnSz
  rw [hpc]
  exact wsub_eq_sub _ _ hle hlt

/-- Handler that requests a restart. -/
def hRst : UserState → UserState :=
  fun s => { s with u_error := ERESTART }

/-- Kernel whose single entry requests a restart. -/
def kRst : Kernel :=
  { kEx with sysent := [{ sy_narg := 0, sy_call := hRst }] }

/-- C5 witness: the restarting handler under kRst at frame address 200. -/
theorem restart_encoding_witness :
    ((¬ (200 : Nat) % W < (kRst.uAddr + kRst.uSize) % W) ∧
      (¬ sEx.u_frame.tf_sp < (sEx.u_procp.p_daddr + sEx.u_dsize) % W) ∧
      (postInvoke kRst sEx).u_error = ERESTART) ∧
    (syscall kRst 200 sEx =
      .ok { u := finalU kRst sEx, psigs := [], invoked := true,
            userretPc := (finalU kRst sEx).u_frame.tf_pc,
            userretSyst := sEx.u_ru_stime } ∧
    (finalU kRst sEx).u_frame.tf_pc =
      wsub (postInvoke kRst sEx).u_frame.tf_pc kRst.insnSz ∧
    (finalU kRst sEx).u_frame.tf_psr = (postInvoke kRst sEx).u_frame.tf_psr ∧
    (finalU kRst sEx).u_frame.tf_r0 = (postInvoke kRst sEx).u_frame.tf_r0 ∧
    ((postInvoke kRst sEx).u_frame.tf_pc = sEx.u_frame.tf_pc →
      kRst.insnSz ≤ sEx.u_frame.tf_pc → sEx.u_frame.tf_pc < W →
      (finalU kRst sEx).u_frame.tf_pc = sEx.u_frame.tf_pc - kRst.insnSz)) :=
  ⟨⟨by decide, by decide, by decide⟩,
   restart_encoding kRst 200 sEx (by decide) (by decide) (by decide)⟩

/-- C6: suppressed-return encoding.  When the error code equals
EJUSTRETURN after handler invocation, the result-encoding step writes
nothing: the final per-process state (frame included) is exactly the
state the handler left, and when the handler itself left the frame
unchanged the outcome frame is bit-for-bit the pre-dispatch frame. -/
theorem justreturn_frame_untouched (k : Kernel) (fa : Nat) (s : UserState)
    (hpanic : ¬ fa % W < (k.uAddr + k.uSize) % W)
    (hok : ¬ s.u_frame.tf_sp < (s.u_procp.p_daddr + s.u_dsize) % W)
    (he : (postInvoke k s).u_error = EJUSTRETURN) :
    finalU k s = postInvoke k s ∧
    syscall k fa s =
      .ok { u := postInvoke k s, psigs := [], invoked := true,
            userretPc := (postInvoke k s).u_frame.tf_pc,
            userretSyst := s.u_ru_stime } ∧
    ((postInvoke k s).u_frame = s.u_frame →
      ∃ o : SyscallOutcome, syscall k fa s = .ok o ∧
        o.u.u_frame = s.u_frame) := by
  have heq : finalU k s = postInvoke k s := by
    unfold finalU resultEncode
    rw [he, if_neg (by decide), if_neg (by decide), if_pos rfl]
  have hgood := syscall_good k fa s hpanic hok
  rw [heq] at hgood
  exact ⟨heq, hgood, fun hf => ⟨_, hgood, hf⟩⟩

/-- Handler that performs the signal-handler return plumbing: it leaves
the frame alone and sets EJUSTRETURN. -/
def hJst : UserState → UserState :=
  fun s => { s with u_error := EJUSTRETURN }

/-- Kernel whose single entry suppresses its return. -/
def kJst : Kernel :=
  { kEx with sysent := [{ sy_narg := 0, sy_call := hJst }] }

/-- C6 witness: the suppressing handler under kJst at frame address 200. -/
theorem justreturn_frame_untouched_witness :
    ((¬ (200 : Nat) % W < (kJst.uAddr + kJst.uSize) % W) ∧
      (¬ sEx.u_frame.tf_sp < (sEx.u_procp.p_daddr + sEx.u_dsize) % W) ∧
      (postInvoke kJst sEx).u_error = EJUSTRETURN) ∧
    (finalU kJst sEx = postInvoke kJst sEx ∧
    syscall kJst 200 sEx =
      .ok { u := postInvoke kJst sEx, psigs := [], invoked := true,
            userretPc := (postInvoke kJst sEx).u_frame.tf_pc,
            userretSyst := sEx.u_ru_stime } ∧
    ((postInvoke kJst sEx).u_frame = sEx.u_frame →
      ∃ o : SyscallOutcome, syscall kJst 200 sEx = .ok o ∧
        o.u.u_frame = sEx.u_frame)) :=
  ⟨⟨by decide, by decide, by decide⟩,
   justreturn_frame_untouched kJst 200 sEx (by decide) (by decide)
     (by decide)⟩

/-- C4: out-of-range syscall code fallback.  A decoded code at or past
the table length selects entry 0 (same declared argument count and same
handler as a code-0 trap, and the dispatcher consumes the code only
through this entry); a code strictly below the table length selects the
entry at that code; the index used never reaches past the table bound. -/
theorem out_of_range_code_fallback (k : Kernel) (s : UserState) :
    (nsysent k ≤ theCode k s →
      selIndex k (theCode k s) = 0 ∧
      theEntry k s = selectEntry k 0 ∧
      (theEntry k s).sy_narg = (selectEntry k 0).sy_narg ∧
      (theEntry k s).sy_call = (selectEntry k 0).sy_call) ∧
    (theCode k s < nsysent k →
      selIndex k (theCode k s) = theCode k s ∧
      ∀ h : theCode k s < k.sysent.length,
        theEntry k s = k.sysent.get ⟨theCode k s, h⟩) ∧
    (0 < nsysent k → selIndex k (theCode k s) < nsysent k) := by
  refine ⟨?_, ?_, ?_⟩
  · intro h
    have hn : ¬ theCode k s < nsysent k := by omega
    have hi : selIndex k (theCode k s) = 0 := by
      unfold selIndex
      rw [if_neg hn]
    have hz : selIndex k 0 = 0 := by
      unfold selIndex
      split <;> rfl
    have he : theEntry k s = selectEntry k 0 := by
      unfold theEntry selectEntry
      rw [hi, hz]
    exact ⟨hi, he, by rw [he], by rw [he]⟩
  · intro h
    have hi : selIndex k (theCode k s) = theCode k s := by
      unfold selIndex
      rw [if_pos h]
    refine ⟨hi, ?_⟩
    intro hlt
    unfold theEntry selectEntry
    rw [hi]
    exact List.getD_eq_get k.sysent sysent0 hlt
  · intro h
    unfold selIndex
    split
    · assumption
    · exact h

/-- Kernel identical to kEx except that user memory reads as 7, so the
decoded syscall code is 7 while the table has a single entry. -/
def kFall : Kernel :=
  { kEx with mem := fun _ => 7 }

/-- C4 witness: code 7 against the one-entry table of kFall falls back
to entry 0 and the index stays in bounds. -/
theorem out_of_range_code_fallback_witness :
    (nsysent kFall ≤ theCode kFall sEx ∧ 0 < nsysent kFall) ∧
    ((selIndex kFall (theCode kFall sEx) = 0 ∧
      theEntry kFall sEx = selectEntry kFall 0 ∧
      (theEntry kFall sEx).sy_narg = (selectEntry kFall 0).sy_narg ∧
      (theEntry kFall sEx).sy_call = (selectEntry kFall 0).sy_call) ∧
      selIndex kFall (theCode kFall sEx) < nsysent kFall) :=
  ⟨⟨by decide, by decide⟩,
   (out_of_range_code_fallback kFall sEx).1 (by decide),
   (out_of_range_code_fallback kFall sEx).2.2 (by decide)⟩

/-- C7: stack growth bookkeeping is monotonic.  On a trap that passes
the data-segment check, the recorded size becomes USER_DATA_END minus
the trapped stack pointer only when that quantity exceeds the recorded
size (a max), the bookkeeping is untouched otherwise, the recorded size
never decreases, and a later trap with a higher (less extreme) stack
pointer leaves both the recorded size and the recorded base unchanged. -/
theorem stack_growth_monotonic (k : Kernel) (s : UserState)
    (hsp : s.u_frame.tf_sp ≤ k.userDataEnd) (hud : k.userDataEnd < W) :
    (postStack k s).u_procp.p_ssize =
      max s.u_procp.p_ssize (k.userDataEnd - s.u_frame.tf_sp) ∧
    (k.userDataEnd - s.u_frame.tf_sp ≤ s.u_procp.p_ssize →
      (postStack k s).u_procp = s.u_procp ∧
      (postStack k s).u_ssize = s.u_ssize) ∧
    s.u_procp.p_ssize ≤ (postStack k s).u_procp.p_ssize ∧
    (∀ s2 : UserState, s2.u_procp = (postStack k s).u_procp →
      s.u_frame.tf_sp ≤ s2.u_frame.tf_sp →
      s2.u_frame.tf_sp ≤ k.userDataEnd →
      (postStack k s2).u_procp = (postStack k s).u_procp ∧
      (postStack k s2).u_ssize = s2.u_ssize) := by
  have hw : wsub k.userDataEnd s.u_frame.tf_sp =
      k.userDataEnd - s.u_frame.tf_sp := wsub_eq_sub _ _ hsp hud
  have hp := postStack_procp k s
  have hs := postStack_ssize k s
  rw [hw] at hp hs
  have hmax : (postStack k s).u_procp.p_ssize =
      max s.u_procp.p_ssize (k.userDataEnd - s.u_frame.tf_sp) := by
    rw [hp]
    rcases Nat.lt_or_ge s.u_procp.p_ssize
        (k.userDataEnd - s.u_frame.tf_sp) with hc | hc
    · rw [if_pos hc]
      show k.userDataEnd - s.u_frame.tf_sp = _
      omega
    · rw [if_neg (by omega)]
      omega
  refine ⟨hmax, ?_, ?_, ?_⟩
  · intro hge
    constructor
    · rw [hp, if_neg (by omega)]
    · rw [hs, if_neg (by omega)]
  · rw [hmax]
    omega
  · intro s2 h2 hle hle2
    have hw2 : wsub k.userDataEnd s2.u_frame.tf_sp =
        k.userDataEnd - s2.u_frame.tf_sp := wsub_eq_sub _ _ hle2 hud
    have hp2 := postStack_procp k s2
    have hs2 := postStack_ssize k s2
    rw [hw2] at hp2 hs2
    have hge : k.userDataEnd - s2.u_frame.tf_sp ≤ s2.u_procp.p_ssize := by
      rw [h2, hmax]
      omega
    constructor
    · rw [hp2, if_neg (by omega), h2]
    · rw [hs2, if_neg (by omega)]

/-- C7 witness: at stack pointer 65536 with user data end 1048576 the
recorded size grows to 983040 and a later, higher stack pointer leaves
the bookkeeping alone. -/
theorem stack_growth_monotonic_witness :
    (sEx.u_frame.tf_sp ≤ kEx.userDataEnd ∧ kEx.userDataEnd < W) ∧
    ((postStack kEx sEx).u_procp.p_ssize =
      max sEx.u_procp.p_ssize (kEx.userDataEnd - sEx.u_frame.tf_sp) ∧
    (kEx.userDataEnd - sEx.u_frame.tf_sp ≤ sEx.u_procp.p_ssize →
      (postStack kEx sEx).u_procp = sEx.u_procp ∧
      (postStack kEx sEx).u_ssize = sEx.u_ssize) ∧
    sEx.u_procp.p_ssize ≤ (postStack kEx sEx).u_procp.p_ssize ∧
    (∀ s2 : UserState, s2.u_procp = (postStack kEx sEx).u_procp →
      sEx.u_frame.tf_sp ≤ s2.u_frame.tf_sp →
      s2.u_frame.tf_sp ≤ kEx.userDataEnd →
      (postStack kEx s2).u_procp = (postStack kEx sEx).u_procp ∧
      (postStack kEx s2).u_ssize = s2.u_ssize)) :=
  ⟨⟨by decide, by decide⟩,
   stack_growth_monotonic kEx sEx (by decide) (by decide)⟩

/-- C8: alignment correction.  For two otherwise identical frames that
differ only in the alignment-padding bit of the status register (clear
in psr, set in psr ||| STKALIGN), the computed addresses of the fifth
and sixth arguments differ by exactly 4 bytes, the padded case 4 bytes
higher. -/
theorem alignment_offset_four (psr sp : Nat) (hsp : sp + 40 < W)
    (hclear : psr &&& SCB_CCR_STKALIGN_Msk = 0) :
    stkalignOf psr = 0 ∧
    stkalignOf (psr ||| SCB_CCR_STKALIGN_Msk) = 4 ∧
    argAddr5 (stkalignOf (psr ||| SCB_CCR_STKALIGN_Msk)) sp =
      argAddr5 (stkalignOf psr) sp + 4 ∧
    argAddr6 (stkalignOf (psr ||| SCB_CCR_STKALIGN_Msk)) sp =
      argAddr6 (stkalignOf psr) sp + 4 := by
  have h0 : stkalignOf psr = 0 := by
    unfold stkalignOf
    rw [if_neg]
    simp [hclear]
  have h4 : stkalignOf (psr ||| SCB_CCR_STKALIGN_Msk) = 4 := by
    have hb : ((psr ||| SCB_CCR_STKALIGN_Msk) &&&
        SCB_CCR_STKALIGN_Msk).testBit 9 = true := by
      rw [Nat.testBit_land, Nat.testBit_lor]
      have hm : SCB_CCR_STKALIGN_Msk.testBit 9 = true := by decide
      rw [hm]
      simp
    unfold stkalignOf
    rw [if_pos]
    intro hz
    rw [hz] at hb
    simp [Nat.zero_testBit] at hb
  have key : ∀ x : Nat, x + 4 < W →
      ((x + 4) % W) &&& (W - 4) = ((x % W) &&& (W - 4)) + 4 := by
    intro x hx
    rw [Nat.mod_eq_of_lt hx, Nat.mod_eq_of_lt (by omega)]
    rw [land_mask4 _ hx, land_mask4 _ (by omega)]
    omega
  refine ⟨h0, h4, ?_, ?_⟩
  · unfold argAddr5
    rw [h0, h4, Nat.add_zero]
    exact key (sp + 32) (by omega)
  · unfold argAddr6
    rw [h0, h4, Nat.add_zero]
    exact key (sp + 36) (by omega)

/-- C8 witness: stack pointer 65536, status register 0 versus the
padding bit set. -/
theorem alignment_offset_four_witness :
    ((65536 : Nat) + 40 < W ∧ (0 : Nat) &&& SCB_CCR_STKALIGN_Msk = 0) ∧
    (stkalignOf 0 = 0 ∧
    stkalignOf (0 ||| SCB_CCR_STKALIGN_Msk) = 4 ∧
    argAddr5 (stkalignOf (0 ||| SCB_CCR_STKALIGN_Msk)) 65536 =
      argAddr5 (stkalignOf 0) 65536 + 4 ∧
    argAddr6 (stkalignOf (0 ||| SCB_CCR_STKALIGN_Msk)) 65536 =
      argAddr6 (stkalignOf 0) 65536 + 4) :=
  ⟨⟨by decide, by decide⟩,
   alignment_offset_four 0 65536 (by decide) (by decide)⟩

/-- Slot 4 of the register-argument copy is the entry value of u_arg at
index 4 (the register copies touch indices 0-3 only). -/
theorem argsRegs_apply_four (s : UserState) : argsRegs s 4 = s.u_arg 4 := by
  unfold argsRegs
  rw [Function.update_noteq (by decide), Function.update_noteq (by decide),
      Function.update_noteq (by decide), Function.update_noteq (by decide)]

/-- Slot 5 of the register-argument copy is the entry value of u_arg at
index 5. -/
theorem argsRegs_apply_five (s : UserState) : argsRegs s 5 = s.u_arg 5 := by
  unfold argsRegs
  rw [Function.update_noteq (by decide), Function.update_noteq (by decide),
      Function.update_noteq (by decide), Function.update_noteq (by decide)]

/-- Index 4 is untouched by the sixth-argument step. -/
theorem args6_apply_four (k : Kernel) (c : Sysent) (s : UserState) :
    args6 k c s 4 = args5 k c s 4 := by
  unfold args6
  split
  · split
    · rw [Function.update_noteq (by decide)]
    · rfl
  · rfl

/-- Index 5 is untouched by the fifth-argument step. -/
theorem args5_apply_five (k : Kernel) (c : Sysent) (s : UserState) :
    args5 k c s 5 = s.u_arg 5 := by
  unfold args5
  split
  · split
    · rw [Function.update_noteq (by decide)]
      exact argsRegs_apply_five s
    · exact argsRegs_apply_five s
  · exact argsRegs_apply_five s

/-- With more than four declared arguments and a failing check for the
fifth-argument address, slot 4 keeps the value it had in u_arg. -/
theorem args5_apply_four_stale (k : Kernel) (c : Sysent) (s : UserState)
    (hn : 4 < c.sy_narg)
    (hbad : k.baduaddr
      (argAddr5 (stkalignOf s.u_frame.tf_psr) s.u_frame.tf_sp) = true) :
    args5 k c s 4 = s.u_arg 4 := by
  unfold args5
  rw [if_pos hn, hbad, if_neg (by simp)]
  exact argsRegs_apply_four s

/-- With more than five declared arguments and a failing check for the
sixth-argument address, slot 5 keeps the value it had in u_arg. -/
theorem args6_apply_five_stale (k : Kernel) (c : Sysent) (s : UserState)
    (hn : 5 < c.sy_narg)
    (hbad : k.baduaddr
      (argAddr6 (stkalignOf s.u_frame.tf_psr) s.u_frame.tf_sp) = true) :
    args6 k c s 5 = s.u_arg 5 := by
  unfold args6
  rw [if_pos hn, hbad, if_neg (by simp)]
  exact args5_apply_five k c s

/-- With more than five declared arguments and a passing check for the
sixth-argument address, slot 5 is read from user memory. -/
theorem args6_apply_five_read (k : Kernel) (c : Sysent) (s : UserState)
    (hn : 5 < c.sy_narg)
    (hgood : k.baduaddr
      (argAddr6 (stkalignOf s.u_frame.tf_psr) s.u_frame.tf_sp) = false) :
    args6 k c s 5 =
      k.mem (argAddr6 (stkalignOf s.u_frame.tf_psr) s.u_frame.tf_sp) := by
  unfold args6
  rw [if_pos hn, hgood, if_pos (by simp), Function.update_same]

/-- C9: stale argument on a failed validity check.  For an entry
declaring more than four arguments, dispatch proceeds and the handler is
invoked on the fetched state with no error raised before invocation,
whatever the outcome of the two address checks; each stack-argument read
is guarded independently: a failing check for the fifth-argument address
leaves slot 4 at the value it held on entry, a failing check for the
sixth-argument address (with more than five declared arguments) leaves
slot 5 at the value it held on entry, and a passing sixth-argument check
still reads slot 5 from user memory. -/
theorem stale_arg_on_bad_addr (k : Kernel) (fa : Nat) (s : UserState)
    (hpanic : ¬ fa % W < (k.uAddr + k.uSize) % W)
    (hok : ¬ s.u_frame.tf_sp < (s.u_procp.p_daddr + s.u_dsize) % W)
    (hn : 4 < (theEntry k s).sy_narg) :
    (preInvoke k s).u_error = 0 ∧
    syscall k fa s =
      .ok { u := finalU k s, psigs := [], invoked := true,
            userretPc := (finalU k s).u_frame.tf_pc,
            userretSyst := s.u_ru_stime } ∧
    postInvoke k s = (theEntry k s).sy_call (preInvoke k s) ∧
    (k.baduaddr
        (argAddr5 (stkalignOf s.u_frame.tf_psr) s.u_frame.tf_sp) = true →
      (preInvoke k s).u_arg 4 = s.u_arg 4) ∧
    (5 < (theEntry k s).sy_narg →
      k.baduaddr
        (argAddr6 (stkalignOf s.u_frame.tf_psr) s.u_frame.tf_sp) = true →
      (preInvoke k s).u_arg 5 = s.u_arg 5) ∧
    (5 < (theEntry k s).sy_narg →
      k.baduaddr
        (argAddr6 (stkalignOf s.u_frame.tf_psr) s.u_frame.tf_sp) = false →
      (preInvoke k s).u_arg 5 =
        k.mem (argAddr6 (stkalignOf s.u_frame.tf_psr) s.u_frame.tf_sp)) := by
  have hfr := postStack_u_frame k s
  have hargs : (preInvoke k s).u_arg =
      args6 k (theEntry k s) (postStack k s) := by
    show (fetchArgs k (theEntry k s) (postStack k s)).u_arg = _
    unfold fetchArgs
    rw [if_pos (by omega : (theEntry k s).sy_narg ≠ 0)]
  refine ⟨preInvoke_u_error k s, syscall_good k fa s hpanic hok, rfl,
    ?_, ?_, ?_⟩
  · intro hbad5
    have hbad5p : k.baduaddr
        (argAddr5 (stkalignOf (postStack k s).u_frame.tf_psr)
          (postStack k s).u_frame.tf_sp) = true := by
      rw [hfr]
      exact hbad5
    rw [hargs, args6_apply_four,
        args5_apply_four_stale k (theEntry k s) (postStack k s) hn hbad5p,
        postStack_u_arg]
  · intro hn5 hbad6
    have hbad6p : k.baduaddr
        (argAddr6 (stkalignOf (postStack k s).u_frame.tf_psr)
          (postStack k s).u_frame.tf_sp) = true := by
      rw [hfr]
      exact hbad6
    rw [hargs, args6_apply_five_stale k (theEntry k s) (postStack k s) hn5
        hbad6p, postStack_u_arg]
  · intro hn5 hgood
    have hgoodp : k.baduaddr
        (argAddr6 (stkalignOf (postStack k s).u_frame.tf_psr)
          (postStack k s).u_frame.tf_sp) = false := by
      rw [hfr]
      exact hgood
    rw [hargs, args6_apply_five_read k (theEntry k s) (postStack k s) hn5
        hgoodp, hfr]

/-- Kernel with a six-argument entry whose fifth- and sixth-argument
addresses (65568 and 65572 for stack pointer 65536 and a clear padding
bit) are both rejected by baduaddr; user memory reads as address plus
one. -/
def kArg : Kernel :=
  { kEx with sysent := [{ sy_narg := 6, sy_call := hSuc }],
             baduaddr := fun a => a == 65568 || a == 65572,
             mem := fun a => a + 1 }

/-- C9 witness: under kArg both stack-argument checks fail, so slot 4
and slot 5 keep their stale value 77 while dispatch still proceeds and
the handler is invoked. -/
theorem stale_arg_on_bad_addr_witness :
    ((¬ (200 : Nat) % W < (kArg.uAddr + kArg.uSize) % W) ∧
      (¬ sEx.u_frame.tf_sp < (sEx.u_procp.p_daddr + sEx.u_dsize) % W) ∧
      4 < (theEntry kArg sEx).sy_narg ∧
      kArg.baduaddr
        (argAddr5 (stkalignOf sEx.u_frame.tf_psr) sEx.u_frame.tf_sp) =
        true ∧
      kArg.baduaddr
        (argAddr6 (stkalignOf sEx.u_frame.tf_psr) sEx.u_frame.tf_sp) =
        true) ∧
    ((preInvoke kArg sEx).u_error = 0 ∧
    syscall kArg 200 sEx =
      .ok { u := finalU kArg sEx, psigs := [], invoked := true,
            userretPc := (finalU kArg sEx).u_frame.tf_pc,
            userretSyst := sEx.u_ru_stime } ∧
    postInvoke kArg sEx = (theEntry kArg sEx).sy_call (preInvoke kArg sEx) ∧
    (kArg.baduaddr
        (argAddr5 (stkalignOf sEx.u_frame.tf_psr) sEx.u_frame.tf_sp) =
        true →
      (preInvoke kArg sEx).u_arg 4 = sEx.u_arg 4) ∧
    (5 < (theEntry kArg sEx).sy_narg →
      kArg.baduaddr
        (argAddr6 (stkalignOf sEx.u_frame.tf_psr) sEx.u_frame.tf_sp) =
        true →
      (preInvoke kArg sEx).u_arg 5 = sEx.u_arg 5) ∧
    (5 < (theEntry kArg sEx).sy_narg →
      kArg.baduaddr
        (argAddr6 (stkalignOf sEx.u_frame.tf_psr) sEx.u_frame.tf_sp) =
        false →
      (preInvoke kArg sEx).u_arg 5 =
        kArg.mem
          (argAddr6 (stkalignOf sEx.u_frame.tf_psr) sEx.u_frame.tf_sp))) :=
  ⟨⟨by decide, by decide, by decide, by decide, by decide⟩,
   stale_arg_on_bad_addr kArg 200 sEx (by decide) (by decide) (by decide)⟩

end DiscoBSD
